import Mathlib

/-!
A shallow embedding of the CDC file-discovery and SQL-generation core of the
`rust-cdc-validator` repository, with theorems checking the repository's
specification against it.

Embedded source files:

* `src/s3/s3_operator.rs` — `LoadParquetFilesPayload`,
  `S3OperatorImpl::get_list_of_parquet_files_from_s3` and
  `S3OperatorImpl::get_files_from_s3_based_on_date` (the file
  `src/s3/s3_ops.rs` contains a byte-identical legacy copy of the same two
  functions, so the embedding covers both).
* `src/postgres/table_query.rs` — the `TableQuery` enum and its `Display`
  implementation.

Modelling decisions:

* Timestamps (`aws_sdk_s3::primitives::DateTime` values and the parsed
  `start_date`/`stop_date`) are modelled as `Int` in an order-preserving
  encoding: a valid `YYYY-MM-DDTHH:MM:SSZ` instant is encoded as the number
  whose decimal digits are `YYYYMMDDHHMMSS`.  For valid calendar timestamps
  this encoding is strictly monotone in real time order, and the source only
  ever compares timestamps, so every comparison is preserved.
* The two library parses performed by the source on `start_date`
  (`chrono::NaiveDate::parse_from_str` with format `%Y-%m-%dT%H:%M:%SZ`,
  then `DateTime::from_str` with `DateTimeFormat::DateTimeWithOffset`) and
  the single parse of `stop_date` are modelled by one concrete parser
  `parseTimestampZ` that succeeds exactly on well-formed
  `YYYY-MM-DDTHH:MM:SSZ` calendar timestamps, the repository's documented
  configuration surface for these fields.
* The paginated `list_objects_v2` loop is modelled by a `listing` oracle
  parameter: the concatenation, over all pages, of the objects S3 returns
  for the computed bucket/prefix/start-after, each carrying its `key` and
  optional `last_modified` exactly as in the SDK response type.
* Rust's `Vec::rotate_right(k)` (defined for `k ≤ len`, which the call site
  guarantees since `k` counts elements of the vector) is modelled by
  `rotate_right`, moving the last `k` elements to the front.
* `indexmap::IndexMap` iterates in insertion order; it is modelled as an
  association list `List (String × String)`.
* Rust's `String::pop` removes the last character (no-op on the empty
  string); it is modelled by `strPop` on the character list.
-/

namespace RustCdcValidator

/-- Numeric value of a decimal digit character. -/
def digitVal (c : Char) : Int := (c.toNat : Int) - 48

/-- Gregorian leap-year test, as used by the calendar validation of
`chrono::NaiveDate`. -/
def isLeapYear (y : Int) : Bool :=
  y % 4 == 0 && (y % 100 != 0 || y % 400 == 0)

/-- Number of days in month `m` of year `y`. -/
def daysInMonth (y m : Int) : Int :=
  if m == 2 then (if isLeapYear y then 29 else 28)
  else if m == 4 || m == 6 || m == 9 || m == 11 then 30
  else 31

/-- Order-preserving integer encoding of a calendar timestamp: the decimal
digits of the result are `YYYYMMDDHHMMSS`.  On valid timestamps this is
strictly monotone with respect to chronological order, which is all the
source ever uses timestamps for (comparisons). -/
def encodeTimestamp (y mo d h mi s : Int) : Int :=
  ((((y * 100 + mo) * 100 + d) * 100 + h) * 100 + mi) * 100 + s

/-- Model of the timestamp parsing the source performs with `?` before any
listing call: succeeds exactly on well-formed `YYYY-MM-DDTHH:MM:SSZ`
calendar timestamps (4-digit year, valid month/day for that year, hour ≤ 23,
minute ≤ 59, second ≤ 59), returning the encoded instant. -/
def parseTimestampZ (str : String) : Option Int :=
  match str.data with
  | [y1, y2, y3, y4, sep1, mo1, mo2, sep2, d1, d2, sepT, h1, h2, sep3, mi1, mi2, sep4, s1, s2, sepZ] =>
    if ([y1, y2, y3, y4, mo1, mo2, d1, d2, h1, h2, mi1, mi2, s1, s2].all Char.isDigit
        && sep1 == '-' && sep2 == '-' && sepT == 'T'
        && sep3 == ':' && sep4 == ':' && sepZ == 'Z') then
      let y := ((digitVal y1 * 10 + digitVal y2) * 10 + digitVal y3) * 10 + digitVal y4
      let mo := digitVal mo1 * 10 + digitVal mo2
      let d := digitVal d1 * 10 + digitVal d2
      let h := digitVal h1 * 10 + digitVal h2
      let mi := digitVal mi1 * 10 + digitVal mi2
      let s := digitVal s1 * 10 + digitVal s2
      if 1 ≤ mo ∧ mo ≤ 12 ∧ 1 ≤ d ∧ d ≤ daysInMonth y mo ∧ h ≤ 23 ∧ mi ≤ 59 ∧ s ≤ 59 then
        some (encodeTimestamp y mo d h mi s)
      else none
    else none
  | _ => none

/-- One object of a `list_objects_v2` response page: the SDK's
`Object { key : Option String, last_modified : Option DateTime, .. }`.
The source unwraps `key` (`object.key.unwrap()`), so `key` is kept plain;
`last_modified` keeps its `Option`, which the source guards on with
`if let Some(last_modified) = object.last_modified`. -/
structure S3Object where
  key : String
  last_modified : Option Int
deriving DecidableEq, Repr

/-- Substring search for `"LOAD"` over a character list, modelling Rust's
`str::contains("LOAD")`. -/
def hasLOADSub : List Char → Bool
  | 'L' :: 'O' :: 'A' :: 'D' :: _ => true
  | _ :: rest => hasLOADSub rest
  | [] => false

/-- `file.contains("LOAD")` from the source: the structural Snapshot-kind
marker test. -/
def keyContainsLOAD (key : String) : Bool := hasLOADSub key.data

/-- The per-object inclusion test of the listing loop in
`get_files_from_s3_based_on_date` (`src/s3/s3_operator.rs` lines 179–196):
an object with no `last_modified` is skipped; otherwise, with a stop date it
is kept when `(last_modified > start_date && last_modified < stop_date) ||
file.contains("LOAD")`, and without one when `last_modified > start_date ||
file.contains("LOAD")`. -/
def keepFile (start_date : Int) (stop_date : Option Int) (o : S3Object) : Bool :=
  match o.last_modified with
  | none => false
  | some last_modified =>
    match stop_date with
    | some sd =>
      (decide (last_modified > start_date) && decide (last_modified < sd))
        || keyContainsLOAD o.key
    | none => decide (last_modified > start_date) || keyContainsLOAD o.key

/-- `S3OperatorImpl::get_files_from_s3_based_on_date`: pages through the
listing (collapsed here into the `listing` oracle) and pushes the key of
every object passing `keepFile`, in listing order. -/
def get_files_from_s3_based_on_date (start_date : Int) (stop_date : Option Int)
    (listing : List S3Object) : List String :=
  (listing.filter (keepFile start_date stop_date)).map S3Object.key

/-- Rust's `Vec::rotate_right(k)` for `k ≤ len`: the last `k` elements move
to the front, the rest follow in order. -/
def rotate_right (l : List String) (k : Nat) : List String :=
  l.drop (l.length - k) ++ l.take (l.length - k)

/-- The `LoadParquetFilesPayload` enum of `src/s3/s3_operator.rs` (the field
written `s3_prefix` in the source is called `s3_root` here). -/
inductive LoadParquetFilesPayload where
  | DateAware (bucket_name : String) (s3_root : String) (database_name : String)
      (schema_name : String) (table_name : String)
      (start_date : String) (stop_date : Option String)
  | AbsolutePath (path : String)

/-- The `stop_date` arm of the source: `None` stays `None`, `Some s` is
parsed with `?`, so a parse failure aborts the whole call. -/
def parseStopDate : Option String → Except String (Option Int)
  | none => Except.ok none
  | some sd =>
    match parseTimestampZ sd with
    | none => Except.error "ParseError: stop_date"
    | some v => Except.ok (some v)

/-- `S3OperatorImpl::get_list_of_parquet_files_from_s3`
(`src/s3/s3_operator.rs` lines 83–142): for `DateAware`, parse the dates
(failures propagate before any listing is consumed), collect the filtered
listing, count the files whose key contains `"LOAD"`, and rotate the list
right by that count; for `AbsolutePath`, return the single-element list. -/
def get_list_of_parquet_files_from_s3 (payload : LoadParquetFilesPayload)
    (listing : List S3Object) : Except String (List String) :=
  match payload with
  | .DateAware _ _ _ _ _ start_date stop_date =>
    match parseTimestampZ start_date with
    | none => Except.error "ParseError: start_date"
    | some start_v =>
      match parseStopDate stop_date with
      | Except.error e => Except.error e
      | Except.ok stop_v =>
        let files_list := get_files_from_s3_based_on_date start_v stop_v listing
        let load_files_count := (files_list.filter keyContainsLOAD).length
        Except.ok (rotate_right files_list load_files_count)
  | .AbsolutePath absolute_path => Except.ok [absolute_path]

/-- Rust's `String::pop`: remove the last character (no-op on the empty
string). -/
def strPop (s : String) : String := String.mk s.data.dropLast

/-- The `TableQuery` enum of `src/postgres/table_query.rs`.  The
`FindPrimaryKey` constructor's two positional fields are named `table` and
`schema` in that order, exactly as the source's `Display` implementation
destructures them (`TableQuery::FindPrimaryKey(table, schema)`). -/
inductive TableQuery where
  | FindAllColumns (schema table : String)
  | FindTablesForSchema (schema subquery : String)
  | DeleteRows (schema table primary_key primary_key_value : String)
  | FindPrimaryKey (table schema : String)
  | CreateSchema (schema : String)
  | CreateTable (schema table : String)
      (column_data_types : List (String × String)) (primary_key : String)
  | DropSchema (schema : String)

/-- The `Display` implementation for `TableQuery`
(`src/postgres/table_query.rs` lines 14–101), with every literal (including
its newlines and 20-space indentation) transcribed verbatim; `\x27` is the
single-quote character. -/
def TableQuery.display : TableQuery → String
  | FindAllColumns schema table =>
    "SELECT column_name , data_type\n                    FROM information_schema.columns \n                    WHERE table_schema = \x27" ++ schema
      ++ "\x27 \n                    AND table_name = \x27" ++ table ++ "\x27"
  | FindTablesForSchema schema subquery =>
    "SELECT table_name\n                    FROM information_schema.tables\n                    WHERE table_schema = \x27" ++ schema
      ++ "\x27 " ++ subquery ++ "\n                    "
  | DeleteRows schema table primary_key primary_key_value =>
    "\n                    DELETE FROM " ++ schema ++ "." ++ table
      ++ "\n                    WHERE (" ++ primary_key ++ ")=(" ++ primary_key_value
      ++ ")\n                    "
  | FindPrimaryKey table schema =>
    "\n                    SELECT a.attname\n                    FROM   pg_index i\n                    JOIN   pg_attribute a ON a.attrelid = i.indrelid\n                    AND a.attnum = ANY(i.indkey)\n                    WHERE  i.indrelid = \x27"
      ++ schema ++ "." ++ table
      ++ "\x27::regclass\n                    AND    i.indisprimary"
  | CreateSchema schema =>
    "\n                    CREATE SCHEMA IF NOT EXISTS " ++ schema
      ++ "\n                    "
  | CreateTable schema table column_data_types primary_key =>
    let query := "CREATE TABLE IF NOT EXISTS " ++ schema ++ "." ++ table ++ " ("
    let query := column_data_types.foldl
      (fun q cd => q ++ (cd.1 ++ " " ++ cd.2 ++ ",")) query
    let query := if primary_key = "" then strPop query
      else query ++ ("PRIMARY KEY (" ++ primary_key ++ ")")
    query ++ ")"
  | DropSchema schema =>
    "\n                    DROP SCHEMA IF EXISTS " ++ schema
      ++ " CASCADE\n                    "

/-- The `column type` pairs joined by commas, with no trailing separator, in
list (insertion) order. -/
def columnsJoined : List (String × String) → String
  | [] => ""
  | [cd] => cd.1 ++ " " ++ cd.2
  | cd :: rest => cd.1 ++ " " ++ cd.2 ++ "," ++ columnsJoined rest

theorem strPop_append_singleton (x : String) (c : Char) :
    strPop (x ++ String.mk [c]) = x := by
  apply String.ext
  simp [strPop, String.data_append]

theorem keepFile_of_load (start_date : Int) (stop_date : Option Int)
    (o : S3Object) (hload : keyContainsLOAD o.key = true)
    (hlm : o.last_modified ≠ none) :
    keepFile start_date stop_date o = true := by
  unfold keepFile
  cases h : o.last_modified with
  | none => exact absurd h hlm
  | some lm => cases stop_date <;> simp [hload]

theorem rotate_right_append (a b : List String) :
    rotate_right (a ++ b) b.length = b ++ a := by
  unfold rotate_right
  have h : (a ++ b).length - b.length = a.length := by simp
  rw [h, List.drop_left, List.take_left]

theorem rotate_right_perm (l : List String) (k : Nat) :
    (rotate_right l k).Perm l := by
  unfold rotate_right
  exact List.perm_append_comm.trans (by rw [List.take_append_drop])

theorem createTable_foldl (cols : List (String × String)) :
    ∀ q : String, cols ≠ [] →
      cols.foldl (fun q cd => q ++ (cd.1 ++ " " ++ cd.2 ++ ",")) q
        = q ++ (columnsJoined cols ++ ",") := by
  induction cols with
  | nil => intro q h; exact absurd rfl h
  | cons cd rest ih =>
    intro q _
    cases rest with
    | nil => simp [columnsJoined, String.append_assoc]
    | cons cd2 r2 =>
      rw [List.foldl_cons, ih (q ++ (cd.1 ++ " " ++ cd.2 ++ ",")) (by simp)]
      simp [columnsJoined, String.append_assoc]

theorem strPop_append_comma (x : String) : strPop (x ++ ",") = x :=
  strPop_append_singleton x ','

theorem strPop_append_space_open (x : String) : strPop (x ++ " (") = x ++ " " := by
  have h : strPop ((x ++ " ") ++ "(") = x ++ " " := strPop_append_singleton (x ++ " ") '('
  rw [String.append_assoc] at h
  exact h

theorem get_list_dateAware_eq (bucket root db sch tbl sd : String)
    (st : Option String) (listing : List S3Object)
    (start_v : Int) (stop_v : Option Int)
    (hstart : parseTimestampZ sd = some start_v)
    (hstop : parseStopDate st = Except.ok stop_v) :
    get_list_of_parquet_files_from_s3
        (.DateAware bucket root db sch tbl sd st) listing
      = Except.ok (rotate_right
          (get_files_from_s3_based_on_date start_v stop_v listing)
          ((get_files_from_s3_based_on_date start_v stop_v listing).filter
            keyContainsLOAD).length) := by
  simp only [get_list_of_parquet_files_from_s3]
  rw [hstart, hstop]

/-- C2: a listed object of Change kind (key not containing `"LOAD"`) that
carries a last-modified timestamp is retained by the listing filter exactly
when `last_modified > start` and, whenever a stop bound is present,
`last_modified < stop`; both bounds are strict, so boundary-equal
timestamps are excluded, and the date-based listing returns exactly the
keys of the retained objects. -/
theorem change_window_exclusive (start_date : Int) (stop_date : Option Int)
    (listing : List S3Object) (o : S3Object) (lm : Int)
    (hchange : keyContainsLOAD o.key = false)
    (hlm : o.last_modified = some lm)
    (hin : o ∈ listing) :
    (o ∈ listing.filter (keepFile start_date stop_date) ↔
      start_date < lm ∧ ∀ sd, stop_date = some sd → lm < sd)
    ∧ get_files_from_s3_based_on_date start_date stop_date listing
        = (listing.filter (keepFile start_date stop_date)).map S3Object.key := by
  refine ⟨?_, rfl⟩
  rw [List.mem_filter]
  simp only [hin, true_and]
  unfold keepFile
  rw [hlm]
  cases stop_date with
  | none => simp [hchange]
  | some sd => simp [hchange]

theorem change_window_exclusive_witness :
    ((⟨"a.parquet", some 5⟩ : S3Object)
        ∈ ([⟨"a.parquet", some 5⟩] : List S3Object).filter (keepFile 3 (some 7)) ↔
      (3 : Int) < 5 ∧ ∀ sd, (some 7 : Option Int) = some sd → (5 : Int) < sd)
    ∧ get_files_from_s3_based_on_date 3 (some 7) [⟨"a.parquet", some 5⟩]
        = (([⟨"a.parquet", some 5⟩] : List S3Object).filter
            (keepFile 3 (some 7))).map S3Object.key :=
  change_window_exclusive 3 (some 7) [⟨"a.parquet", some 5⟩]
    ⟨"a.parquet", some 5⟩ 5 rfl rfl (by simp)

/-- C3 counterexample: a Snapshot-kind object (key contains `"LOAD"`) whose
`last_modified` metadata is absent is dropped by the filter, so Snapshot
inclusion is not unconditional with respect to all other object metadata:
discovery over a listing holding only that object returns the empty list. -/
theorem snapshot_unconditional_ce :
    keyContainsLOAD "LOAD1.parquet" = true
    ∧ get_list_of_parquet_files_from_s3
        (.DateAware "b" "p" "db" "sch" "tbl" "2024-01-01T00:00:00Z" none)
        [⟨"LOAD1.parquet", none⟩]
      = Except.ok [] := ⟨rfl, rfl⟩

/-- C3 (amended): every listed object of Snapshot kind that carries a
last-modified timestamp is included in the date-based discovery result,
whatever the window bounds are (here even a window that excludes every
timestamp); only an object with no last-modified metadata is skipped. -/
theorem snapshot_always_kept (start_date : Int) (stop_date : Option Int)
    (listing : List S3Object) (o : S3Object) (lm : Int)
    (hsnap : keyContainsLOAD o.key = true)
    (hlm : o.last_modified = some lm)
    (hin : o ∈ listing) :
    o.key ∈ get_files_from_s3_based_on_date start_date stop_date listing := by
  unfold get_files_from_s3_based_on_date
  exact List.mem_map_of_mem S3Object.key
    (List.mem_filter.mpr
      ⟨hin, keepFile_of_load start_date stop_date o hsnap (by simp [hlm])⟩)

theorem snapshot_always_kept_witness :
    ("LOAD1.parquet" : String)
      ∈ get_files_from_s3_based_on_date 99 (some 0) [⟨"LOAD1.parquet", some 5⟩] :=
  snapshot_always_kept 99 (some 0) [⟨"LOAD1.parquet", some 5⟩]
    ⟨"LOAD1.parquet", some 5⟩ 5 rfl rfl (by simp)

set_option maxRecDepth 8192 in
/-- C4: the end-to-end scenario of the spec: three keys with the first two
last-modified at the encoded instants of `2024-01-01T00:00:00Z` and
`2024-01-02T00:00:00Z` (the first equal to the start bound), start
`2024-01-01T00:00:00Z`, no stop: discovery returns exactly the snapshot
file followed by the second change file — the first change file is excluded
by the exclusive lower bound, and the snapshot file is rotated to the
front. -/
theorem end_to_end_discovery_example :
    parseTimestampZ "2024-01-01T00:00:00Z" = some 20240101000000
    ∧ parseTimestampZ "2024-01-02T00:00:00Z" = some 20240102000000
    ∧ get_list_of_parquet_files_from_s3
        (.DateAware "bucket" "cdc" "db" "sch" "tbl" "2024-01-01T00:00:00Z" none)
        [⟨"20240101T000000-0001.parquet", some 20240101000000⟩,
         ⟨"20240102T000000-0002.parquet", some 20240102000000⟩,
         ⟨"LOAD00000001.parquet", some 20240102000001⟩]
      = Except.ok ["LOAD00000001.parquet", "20240102T000000-0002.parquet"] :=
  ⟨rfl, rfl, rfl⟩

set_option maxRecDepth 8192 in
/-- C6 counterexample: rendering `FindPrimaryKey` with first argument `"s"`
and second argument `"t"` casts the qualified identifier `'t.s'::regclass`
— the second argument first — not `'s.t'::regclass` as the claim states for
`FindPrimaryKey(s, t)` read as (schema, table). -/
theorem find_primary_key_order_ce :
    TableQuery.display (.FindPrimaryKey "s" "t")
      = "\n                    SELECT a.attname\n                    FROM   pg_index i\n                    JOIN   pg_attribute a ON a.attrelid = i.indrelid\n                    AND a.attnum = ANY(i.indkey)\n                    WHERE  i.indrelid = \x27t.s\x27::regclass\n                    AND    i.indisprimary"
    ∧ TableQuery.display (.FindPrimaryKey "s" "t")
      ≠ "\n                    SELECT a.attname\n                    FROM   pg_index i\n                    JOIN   pg_attribute a ON a.attrelid = i.indrelid\n                    AND a.attnum = ANY(i.indkey)\n                    WHERE  i.indrelid = \x27s.t\x27::regclass\n                    AND    i.indisprimary" :=
  ⟨rfl, by decide⟩

/-- C6 (amended): for every pair of arguments, rendering `FindPrimaryKey`
produces the primary-key catalog query over `pg_index` and `pg_attribute`
with the qualified table identifier passed as the single cast
`'<second argument>.<first argument>'::regclass`: the constructor takes the
table name first and the schema name second, and the rendered identifier
puts the schema first. -/
theorem find_primary_key_cast_order (table schema : String) :
    TableQuery.display (.FindPrimaryKey table schema)
      = "\n                    SELECT a.attname\n                    FROM   pg_index i\n                    JOIN   pg_attribute a ON a.attrelid = i.indrelid\n                    AND a.attnum = ANY(i.indkey)\n                    WHERE  i.indrelid = \x27"
        ++ schema ++ "." ++ table
        ++ "\x27::regclass\n                    AND    i.indisprimary" := rfl

/-- C8: an `AbsolutePath(key)` request short-circuits: whatever the object
store would list, the result is exactly the single-element list `[key]`,
with no timestamp parsing, no filtering and no rotation applied. -/
theorem absolute_path_short_circuits (key : String) (listing : List S3Object) :
    get_list_of_parquet_files_from_s3 (.AbsolutePath key) listing
      = Except.ok [key] := rfl

/-- C10 counterexample: with no columns and an empty primary key the
empty-primary-key branch removes the opening parenthesis, but the space
that preceded it remains, so the rendered statement is
`CREATE TABLE IF NOT EXISTS s.t )` — not `CREATE TABLE IF NOT EXISTS s.t)`
as the claim writes it. -/
theorem create_table_empty_ce :
    TableQuery.display (.CreateTable "s" "t" [] "")
      = "CREATE TABLE IF NOT EXISTS s.t )"
    ∧ TableQuery.display (.CreateTable "s" "t" [] "")
      ≠ "CREATE TABLE IF NOT EXISTS s.t)" :=
  ⟨rfl, by decide⟩

/-- C10 (amended): rendering `CreateTable` with an empty column mapping and
an empty primary-key string produces the malformed statement
`CREATE TABLE IF NOT EXISTS <schema>.<table> )`: the empty-primary-key
branch unconditionally removes the last character of the accumulated
string, which in this edge case is the opening parenthesis rather than a
trailing comma, leaving the space that preceded it. -/
theorem create_table_empty_render (s t : String) :
    TableQuery.display (.CreateTable s t [] "")
      = "CREATE TABLE IF NOT EXISTS " ++ s ++ "." ++ t ++ " )" := by
  show strPop ("CREATE TABLE IF NOT EXISTS " ++ s ++ "." ++ t ++ " (") ++ ")"
      = "CREATE TABLE IF NOT EXISTS " ++ s ++ "." ++ t ++ " )"
  rw [strPop_append_space_open, String.append_assoc]
  rfl

/-- C5: rendering `CreateTable` with columns
`{"col1": "varchar", "col2": "int"}` (in insertion order) and primary key
`"pk1,pk2"` produces exactly
`CREATE TABLE IF NOT EXISTS s.t (col1 varchar,col2 int,PRIMARY KEY (pk1,pk2))`;
and for every non-empty column mapping with an empty primary-key string the
rendered statement is the same shape without the `PRIMARY KEY` clause and
without a dangling comma, the columns appearing in the mapping's iteration
order. -/
theorem create_table_ddl_shape (s t : String) (cols : List (String × String))
    (hne : cols ≠ []) :
    TableQuery.display
        (.CreateTable "s" "t" [("col1", "varchar"), ("col2", "int")] "pk1,pk2")
      = "CREATE TABLE IF NOT EXISTS s.t (col1 varchar,col2 int,PRIMARY KEY (pk1,pk2))"
    ∧ TableQuery.display (.CreateTable s t cols "")
      = "CREATE TABLE IF NOT EXISTS " ++ s ++ "." ++ t ++ " ("
          ++ columnsJoined cols ++ ")" := by
  refine ⟨rfl, ?_⟩
  show strPop (cols.foldl (fun q cd => q ++ (cd.1 ++ " " ++ cd.2 ++ ","))
      ("CREATE TABLE IF NOT EXISTS " ++ s ++ "." ++ t ++ " (")) ++ ")"
      = "CREATE TABLE IF NOT EXISTS " ++ s ++ "." ++ t ++ " ("
          ++ columnsJoined cols ++ ")"
  rw [createTable_foldl cols ("CREATE TABLE IF NOT EXISTS " ++ s ++ "." ++ t ++ " (") hne,
    ← String.append_assoc, strPop_append_comma]

theorem create_table_ddl_shape_witness :
    (TableQuery.display
        (.CreateTable "s" "t" [("col1", "varchar"), ("col2", "int")] "pk1,pk2")
      = "CREATE TABLE IF NOT EXISTS s.t (col1 varchar,col2 int,PRIMARY KEY (pk1,pk2))")
    ∧ TableQuery.display (.CreateTable "a" "b" [("c1", "int")] "")
      = "CREATE TABLE IF NOT EXISTS " ++ "a" ++ "." ++ "b" ++ " ("
          ++ columnsJoined [("c1", "int")] ++ ")" :=
  create_table_ddl_shape "a" "b" [("c1", "int")] (by simp)

set_option maxRecDepth 8192 in
/-- C1 counterexample: lexicographic sortedness of the raw listing alone
does not imply that Snapshot entries end up first.  Here the listing
`["LOAD1.parquet", "z.parquet"]` is lexicographically sorted
(`"LOAD1.parquet" < "z.parquet"`), both entries pass the filter, yet the
snapshot file sorts before the change file, so the right rotation by the
LOAD count produces the change file first: the claimed snapshot-first order
is violated. -/
theorem rotation_sorted_only_ce :
    (("LOAD1.parquet" : String) < "z.parquet")
    ∧ get_list_of_parquet_files_from_s3
        (.DateAware "b" "p" "db" "sch" "tbl" "2024-01-01T00:00:00Z" none)
        [⟨"LOAD1.parquet", some 20240101000001⟩,
         ⟨"z.parquet", some 20240101000001⟩]
      = Except.ok ["z.parquet", "LOAD1.parquet"]
    ∧ (["z.parquet", "LOAD1.parquet"] : List String)
      ≠ ["LOAD1.parquet", "z.parquet"] :=
  ⟨by rw [String.lt_iff_toList_lt]; decide, rfl, by decide⟩

/-- C1 (amended): for every DateAware discovery whose raw listing places
every Change-kind entry before every Snapshot-kind entry (which the export
naming convention guarantees for lexicographically sorted listings, since
change keys carry a chronological prefix sorting before the `LOAD` marker),
where every Snapshot entry carries a last-modified timestamp and every
Change entry passes the window test, discovery returns exactly the `k`
Snapshot entries first, in their original relative order, followed by the
`m` Change entries in their original order — achieved by counting the keys
containing `"LOAD"` and right-rotating the filtered list by that count. -/
theorem rotation_snapshots_first
    (bucket root db sch tbl sd : String) (st : Option String)
    (cs ss : List S3Object) (start_v : Int) (stop_v : Option Int)
    (hstart : parseTimestampZ sd = some start_v)
    (hstop : parseStopDate st = Except.ok stop_v)
    (hcs_kind : ∀ o ∈ cs, keyContainsLOAD o.key = false)
    (hss_kind : ∀ o ∈ ss, keyContainsLOAD o.key = true)
    (hss_lm : ∀ o ∈ ss, o.last_modified ≠ none)
    (hcs_keep : ∀ o ∈ cs, keepFile start_v stop_v o = true) :
    get_list_of_parquet_files_from_s3
        (.DateAware bucket root db sch tbl sd st) (cs ++ ss)
      = Except.ok (ss.map S3Object.key ++ cs.map S3Object.key) := by
  have hfilter : (cs ++ ss).filter (keepFile start_v stop_v) = cs ++ ss := by
    rw [List.filter_eq_self]
    intro o ho
    rcases List.mem_append.mp ho with h | h
    · exact hcs_keep o h
    · exact keepFile_of_load start_v stop_v o (hss_kind o h) (hss_lm o h)
  have hfiles : get_files_from_s3_based_on_date start_v stop_v (cs ++ ss)
      = cs.map S3Object.key ++ ss.map S3Object.key := by
    unfold get_files_from_s3_based_on_date
    rw [hfilter, List.map_append]
  have h1 : (cs.map S3Object.key).filter keyContainsLOAD = [] := by
    rw [List.filter_eq_nil_iff]
    intro a ha
    rcases List.mem_map.mp ha with ⟨o, ho, rfl⟩
    simp [hcs_kind o ho]
  have h2 : (ss.map S3Object.key).filter keyContainsLOAD = ss.map S3Object.key := by
    rw [List.filter_eq_self]
    intro a ha
    rcases List.mem_map.mp ha with ⟨o, ho, rfl⟩
    exact hss_kind o ho
  rw [get_list_dateAware_eq bucket root db sch tbl sd st (cs ++ ss) start_v stop_v
      hstart hstop,
    hfiles, List.filter_append, h1, h2, List.nil_append, rotate_right_append]

set_option maxRecDepth 8192 in
theorem rotation_snapshots_first_witness :
    get_list_of_parquet_files_from_s3
        (.DateAware "b" "p" "db" "sch" "tbl" "2024-01-01T00:00:00Z" none)
        ([⟨"20240102T000000-0002.parquet", some 20240102000000⟩]
          ++ [⟨"LOAD00000001.parquet", some 20240101000000⟩])
      = Except.ok
          (([⟨"LOAD00000001.parquet", some 20240101000000⟩] : List S3Object).map
            S3Object.key
          ++ ([⟨"20240102T000000-0002.parquet", some 20240102000000⟩] : List S3Object).map
            S3Object.key) :=
  rotation_snapshots_first "b" "p" "db" "sch" "tbl" "2024-01-01T00:00:00Z" none
    [⟨"20240102T000000-0002.parquet", some 20240102000000⟩]
    [⟨"LOAD00000001.parquet", some 20240101000000⟩]
    20240101000000 none rfl rfl (by decide) (by decide) (by decide) (by decide)

/-- C7: when the start timestamp — or a present stop timestamp — is not a
well-formed `YYYY-MM-DDTHH:MM:SSZ` calendar timestamp, discovery fails with
a parse error: the result is the same `Except.error` for every possible
object-store listing (so no listing is consulted and no partial file list
is returned). -/
theorem malformed_timestamp_fails_fast
    (bucket root db sch tbl sd : String) (st : Option String)
    (listing : List S3Object)
    (h : parseTimestampZ sd = none
      ∨ ∃ s, st = some s ∧ parseTimestampZ s = none) :
    get_list_of_parquet_files_from_s3
        (.DateAware bucket root db sch tbl sd st) listing
      = Except.error (if parseTimestampZ sd = none then "ParseError: start_date"
          else "ParseError: stop_date") := by
  simp only [get_list_of_parquet_files_from_s3]
  cases hs : parseTimestampZ sd with
  | none => simp [hs]
  | some v =>
    rcases h with h1 | ⟨s, hst, hps⟩
    · simp [h1] at hs
    · subst hst
      simp [hs, parseStopDate, hps]

theorem malformed_timestamp_fails_fast_witness :
    get_list_of_parquet_files_from_s3
        (.DateAware "b" "p" "db" "sch" "tbl" "not-a-date" none)
        [⟨"LOAD1.parquet", some 5⟩]
      = Except.error
          (if parseTimestampZ "not-a-date" = none then "ParseError: start_date"
           else "ParseError: stop_date") :=
  malformed_timestamp_fails_fast "b" "p" "db" "sch" "tbl" "not-a-date" none
    [⟨"LOAD1.parquet", some 5⟩] (Or.inl rfl)

/-- C9: every DateAware discovery that succeeds returns exactly the right
rotation of the filtered listing, and that rotation is a permutation of the
filtered listing: the final rotation step never adds, drops or duplicates
an entry, so the result holds exactly the multiset of keys that passed the
Snapshot-or-window filter. -/
theorem discovery_result_perm_filtered
    (bucket root db sch tbl sd : String) (st : Option String)
    (listing : List S3Object) (start_v : Int) (stop_v : Option Int)
    (hstart : parseTimestampZ sd = some start_v)
    (hstop : parseStopDate st = Except.ok stop_v) :
    get_list_of_parquet_files_from_s3
        (.DateAware bucket root db sch tbl sd st) listing
      = Except.ok (rotate_right
          (get_files_from_s3_based_on_date start_v stop_v listing)
          ((get_files_from_s3_based_on_date start_v stop_v listing).filter
            keyContainsLOAD).length)
    ∧ (rotate_right (get_files_from_s3_based_on_date start_v stop_v listing)
        ((get_files_from_s3_based_on_date start_v stop_v listing).filter
          keyContainsLOAD).length).Perm
        (get_files_from_s3_based_on_date start_v stop_v listing) :=
  ⟨get_list_dateAware_eq bucket root db sch tbl sd st listing start_v stop_v
      hstart hstop,
   rotate_right_perm _ _⟩

set_option maxRecDepth 8192 in
theorem discovery_result_perm_filtered_witness :
    get_list_of_parquet_files_from_s3
        (.DateAware "b" "p" "db" "sch" "tbl" "2024-01-01T00:00:00Z" none)
        [⟨"LOAD1.parquet", some 3⟩]
      = Except.ok (rotate_right
          (get_files_from_s3_based_on_date 20240101000000 none
            [⟨"LOAD1.parquet", some 3⟩])
          ((get_files_from_s3_based_on_date 20240101000000 none
            [⟨"LOAD1.parquet", some 3⟩]).filter keyContainsLOAD).length)
    ∧ (rotate_right
        (get_files_from_s3_based_on_date 20240101000000 none
          [⟨"LOAD1.parquet", some 3⟩])
        ((get_files_from_s3_based_on_date 20240101000000 none
          [⟨"LOAD1.parquet", some 3⟩]).filter keyContainsLOAD).length).Perm
        (get_files_from_s3_based_on_date 20240101000000 none
          [⟨"LOAD1.parquet", some 3⟩]) :=
  discovery_result_perm_filtered "b" "p" "db" "sch" "tbl" "2024-01-01T00:00:00Z"
    none [⟨"LOAD1.parquet", some 3⟩] 20240101000000 none rfl rfl

end RustCdcValidator
